import Mathlib

/-!
# Verification of the PAD dashboard core (src/app_dash.py)

Shallow embedding of the record-filtering and aggregation engine of the
dashboard: normalization of raw rows (`load_data`, lines 31–52 and the
`df.empty` guard at lines 55–59), the filter pipeline (`df_filtrado`,
lines 99–112), the summary metrics (lines 119–133), the frequency counts
(`value_counts`, lines 143–167), the time series (lines 206–234) and the
missing-value quality report (lines 276–287).

Dates are modelled as year/month/day triples; `pd.to_datetime(·,
errors='coerce')` is modelled by an ISO `YYYY-MM-DD` parser returning
`none` on malformed input (pandas' NaT). Pandas `NaN`/`NaT` cells are
`Option.none`; the float `NaN` produced by a 0/0 division is modelled as
`none` in an `Option ℚ` result. Ratios are rational numbers.
-/

/-- A calendar date, the payload of a successfully parsed timestamp. -/
structure Date where
  year : Nat
  month : Nat
  day : Nat
deriving DecidableEq, Repr

/-- Numeric value of a decimal digit character. -/
def digitVal (c : Char) : Nat := c.toNat - '0'.toNat

/-- Model of `pd.to_datetime(s, errors='coerce')` on a single cell:
parse an ISO `YYYY-MM-DD` string, `none` (NaT) on anything malformed. -/
def parseDate (s : String) : Option Date :=
  match s.toList with
  | [y1, y2, y3, y4, '-', m1, m2, '-', d1, d2] =>
      if y1.isDigit && y2.isDigit && y3.isDigit && y4.isDigit &&
          m1.isDigit && m2.isDigit && d1.isDigit && d2.isDigit then
        let y := ((digitVal y1 * 10 + digitVal y2) * 10 + digitVal y3) * 10 + digitVal y4
        let m := digitVal m1 * 10 + digitVal m2
        let d := digitVal d1 * 10 + digitVal d2
        if 1 ≤ m && m ≤ 12 && 1 ≤ d && d ≤ 31 then some ⟨y, m, d⟩ else none
      else none
  | _ => none

/-- A raw spreadsheet row: each named cell may be empty (`none`). -/
structure RawRow where
  dataEHoraEntrada : Option String
  dataEntrada : Option String
  tipo : Option String
  especie : Option String
  assunto : Option String
  decisao : Option String
  status : Option String
deriving DecidableEq, Repr

/-- The raw tabular input handed to the loader: the schema (column names
present in the sheet) together with the rows. -/
structure RawInput where
  columns : List String
  rows : List RawRow
deriving Repr

/-- A normalized record of the canonical Dataset: parsed timestamps plus
the derived temporal attributes `ANO`, `MES`, `MES_ANO` of lines 45–47. -/
structure Record where
  dataEHoraEntrada : Option Date
  dataEntrada : Option Date
  ano : Option Nat
  mes : Option Nat
  mesAno : Option Nat
  tipo : Option String
  especie : Option String
  assunto : Option String
  decisao : Option String
  status : Option String
deriving DecidableEq, Repr

/-- Encoding of a pandas `Period('M')` year-month bucket as a natural
number, monotone in (year, month). -/
def monthBucket (d : Date) : Nat := d.year * 12 + (d.month - 1)

/-- Encoding of `dt.date` as a natural number, monotone in
(year, month, day) given `month ≤ 12` and `day ≤ 31`. -/
def dayBucket (d : Date) : Nat := d.year * 1000 + d.month * 50 + d.day

/-- Per-row normalization performed by `load_data` (lines 41–47): coerce
both date columns, derive `ANO`, `MES`, `MES_ANO` from the entry
timestamp, keep the categorical cells as they are. -/
def normalizeRow (r : RawRow) : Record :=
  let entrada := r.dataEHoraEntrada.bind parseDate
  { dataEHoraEntrada := entrada
    dataEntrada := r.dataEntrada.bind parseDate
    ano := entrada.map Date.year
    mes := entrada.map Date.month
    mesAno := entrada.map monthBucket
    tipo := r.tipo
    especie := r.especie
    assunto := r.assunto
    decisao := r.decisao
    status := r.status }

/-- `load_data` (lines 31–52): the column subscripts at lines 41–42 raise
`KeyError` when the named column is absent from the schema, which the
`except` clause turns into an empty frame (`none` here); otherwise every
row is normalized and kept. -/
def load_data (input : RawInput) : Option (List Record) :=
  if "DATA E HORA DE ENTRADA" ∈ input.columns ∧ "DATA DE ENTRADA" ∈ input.columns then
    some (input.rows.map normalizeRow)
  else
    none

/-- The load pipeline at lines 55–59: `df = load_data(...)` followed by
the `if df.empty: st.stop()` guard, so a Dataset is produced only when
`load_data` succeeded and the resulting frame is non-empty. -/
def loadDataset (input : RawInput) : Option (List Record) :=
  match load_data input with
  | none => none
  | some ds => if ds.isEmpty then none else some ds

/-- The active filters built from the sidebar widgets (lines 64–97):
`none` for the year means `'Todos'`; each multiselect contributes a list
of chosen (non-null) values. -/
structure FilterSpec where
  ano : Option Nat
  tipos : List String
  especies : List String
  assuntos : List String
deriving Repr

/-- Membership test behind `Series.isin(sel)` on a nullable cell: a null
cell (`NaN`) is never in the selection. -/
def optMem (v : Option String) (sel : List String) : Bool :=
  match v with
  | some s => sel.contains s
  | none => false

/-- The filter pipeline of lines 99–112, applied in source order: year
(skipped for `'Todos'`), then `TIPO`, `ESPÉCIE`, `ASSUNTO`, each skipped
when its selection list is empty (falsy). -/
def df_filtrado (df : List Record) (spec : FilterSpec) : List Record :=
  let d1 := match spec.ano with
    | none => df
    | some y => df.filter (fun r => r.ano == some y)
  let d2 := if spec.tipos.isEmpty then d1 else d1.filter (fun r => optMem r.tipo spec.tipos)
  let d3 := if spec.especies.isEmpty then d2 else d2.filter (fun r => optMem r.especie spec.especies)
  if spec.assuntos.isEmpty then d3 else d3.filter (fun r => optMem r.assunto spec.assuntos)

/-- The conjunction of the four per-record predicates of lines 102–112. -/
def matchesSpec (spec : FilterSpec) (r : Record) : Bool :=
  (match spec.ano with
    | none => true
    | some y => r.ano == some y) &&
  (spec.tipos.isEmpty || optMem r.tipo spec.tipos) &&
  (spec.especies.isEmpty || optMem r.especie spec.especies) &&
  (spec.assuntos.isEmpty || optMem r.assunto spec.assuntos)

/-- `total_processos = len(df_filtrado)` (line 120). -/
def total_processos (view : List Record) : Nat := view.length

/-- `processos_pendentes = len(df_filtrado[df_filtrado['STATUS'] == 'Pendente'])`
(line 124); a null status compares unequal. -/
def processos_pendentes (view : List Record) : Nat :=
  (view.filter (fun r => r.status == some "Pendente")).length

/-- `processos_com_decisao = len(df_filtrado[df_filtrado['DECISAO'].notna()])`
(line 128). -/
def processos_com_decisao (view : List Record) : Nat :=
  (view.filter (fun r => r.decisao.isSome)).length

/-- `taxa_conclusao = (processos_com_decisao / total_processos * 100) if
total_processos > 0 else 0` (line 132). -/
def taxa_conclusao (view : List Record) : ℚ :=
  if total_processos view > 0 then
    (processos_com_decisao view : ℚ) / (total_processos view : ℚ) * 100
  else 0

/-- The columns of the normalized frame, in schema order. -/
inductive Col where
  | dataEHora
  | dataEntrada
  | ano
  | mes
  | mesAno
  | tipo
  | especie
  | assunto
  | decisao
  | status
deriving DecidableEq, Repr

/-- `isnull()` of one cell of the normalized frame. -/
def isNullAt (r : Record) (c : Col) : Bool :=
  match c with
  | .dataEHora => r.dataEHoraEntrada.isNone
  | .dataEntrada => r.dataEntrada.isNone
  | .ano => r.ano.isNone
  | .mes => r.mes.isNone
  | .mesAno => r.mesAno.isNone
  | .tipo => r.tipo.isNone
  | .especie => r.especie.isNone
  | .assunto => r.assunto.isNone
  | .decisao => r.decisao.isNone
  | .status => r.status.isNone

/-- `missing_data = df_filtrado.isnull().sum()` for one column (line 278). -/
def missing_data (view : List Record) (c : Col) : Nat :=
  view.countP (fun r => isNullAt r c)

/-- `.round(2)`: round a rational to two decimal places. -/
def round2 (q : ℚ) : ℚ := (round (q * 100) : ℤ) / 100

/-- `missing_percent = (missing_data / len(df_filtrado) * 100).round(2)`
(line 279). The denominator is `len(df_filtrado)` itself, with no floor:
on an empty view the division is `0 / 0`, which pandas evaluates to the
float `NaN` (modelled as `none`) rather than raising an error. -/
def missing_percent (view : List Record) (c : Col) : Option ℚ :=
  if view.length = 0 then none
  else some (round2 ((missing_data view c : ℚ) / (view.length : ℚ) * 100))

/-- The distinct elements of a list in order of first appearance,
skipping those already `seen`. -/
def firstSeenAux {α : Type} [DecidableEq α] (seen : List α) : List α → List α
  | [] => []
  | a :: l => if a ∈ seen then firstSeenAux seen l else a :: firstSeenAux (a :: seen) l

/-- The distinct elements of a list in order of first appearance — the
key order that `value_counts` builds its hash table in. -/
def firstSeen {α : Type} [DecidableEq α] (l : List α) : List α := firstSeenAux [] l

/-- Comparison used to sort `value_counts` output: count descending;
a stable insertion sort keeps ties in first-seen order. -/
def byCountDesc (p q : String × Nat) : Prop := q.2 ≤ p.2

instance : DecidableRel byCountDesc := fun p q => inferInstanceAs (Decidable (q.2 ≤ p.2))

instance : IsTotal (String × Nat) byCountDesc := ⟨fun a b => le_total b.2 a.2⟩

instance : IsTrans (String × Nat) byCountDesc := ⟨fun _ _ _ hab hbc => le_trans hbc hab⟩

/-- `Series.value_counts()` on the non-null values of a column: one
entry per distinct value with its multiplicity, sorted by count
descending, ties in first-seen order. -/
def value_counts (vals : List String) : List (String × Nat) :=
  List.insertionSort byCountDesc ((firstSeen vals).map (fun v => (v, vals.count v)))

/-- `frequencyCount(view, attribute, topN?)`: `value_counts` on the
named column's non-null values, truncated with `.head(n)` when `topN`
is given (as at lines 144, 158, 175). -/
def frequencyCount (view : List Record) (attr : Record → Option String)
    (topN : Option Nat) : List (String × Nat) :=
  let res := value_counts (view.filterMap attr)
  match topN with
  | none => res
  | some n => res.take n

/-- `tipo_counts = df_filtrado['TIPO'].value_counts()` (line 144). -/
def tipo_counts (view : List Record) : List (String × Nat) :=
  frequencyCount view Record.tipo none

/-- `especie_counts = df_filtrado['ESPÉCIE'].value_counts().head(10)`
(line 158). -/
def especie_counts (view : List Record) : List (String × Nat) :=
  frequencyCount view Record.especie (some 10)

/-- Grouped counts over bucket keys: the distinct keys present, sorted
ascending, each with its multiplicity. Models both
`groupby(...).size()` (which sorts group keys) and
`value_counts().sort_index()`. -/
def bucketCounts (keys : List Nat) : List (Nat × Nat) :=
  (List.insertionSort (fun a b => a ≤ b) (firstSeen keys)).map (fun b => (b, keys.count b))

/-- `df_temporal = df_filtrado.groupby(df_filtrado['DATA E HORA DE
ENTRADA'].dt.date).size()` (line 208): day-granularity buckets, null
timestamps dropped by the groupby. -/
def df_temporal (view : List Record) : List (Nat × Nat) :=
  bucketCounts (view.filterMap (fun r => r.dataEHoraEntrada.map dayBucket))

/-- `mes_ano_counts = df_filtrado['MES_ANO'].value_counts().sort_index()`
(line 226): month-granularity buckets, null buckets dropped. -/
def mes_ano_counts (view : List Record) : List (Nat × Nat) :=
  bucketCounts (view.filterMap (fun r => r.mesAno))

/-! ## Helper lemmas -/

theorem mem_firstSeenAux {α : Type} [DecidableEq α] (seen l : List α) (x : α) :
    x ∈ firstSeenAux seen l ↔ x ∈ l ∧ x ∉ seen := by
  induction l generalizing seen with
  | nil => simp [firstSeenAux]
  | cons a l ih =>
    rw [firstSeenAux]
    by_cases h : a ∈ seen
    · rw [if_pos h, ih]
      simp only [List.mem_cons]
      constructor
      · rintro ⟨hx, hns⟩
        exact ⟨Or.inr hx, hns⟩
      · rintro ⟨rfl | hx, hns⟩
        · exact absurd h hns
        · exact ⟨hx, hns⟩
    · rw [if_neg h]
      simp only [List.mem_cons, ih, List.mem_cons, not_or]
      constructor
      · rintro (rfl | ⟨hx, hne, hns⟩)
        · exact ⟨Or.inl rfl, h⟩
        · exact ⟨Or.inr hx, hns⟩
      · rintro ⟨rfl | hx, hns⟩
        · exact Or.inl rfl
        · by_cases hxa : x = a
          · exact Or.inl hxa
          · exact Or.inr ⟨hx, hxa, hns⟩

theorem mem_firstSeen {α : Type} [DecidableEq α] (l : List α) (x : α) :
    x ∈ firstSeen l ↔ x ∈ l := by
  rw [firstSeen, mem_firstSeenAux]; simp

theorem nodup_firstSeenAux {α : Type} [DecidableEq α] (seen l : List α) :
    (firstSeenAux seen l).Nodup := by
  induction l generalizing seen with
  | nil => simp [firstSeenAux]
  | cons a l ih =>
    rw [firstSeenAux]
    by_cases h : a ∈ seen
    · rw [if_pos h]; exact ih seen
    · rw [if_neg h]
      refine List.nodup_cons.mpr ⟨?_, ih (a :: seen)⟩
      intro hmem
      exact ((mem_firstSeenAux _ _ _).mp hmem).2 (List.mem_cons_self a seen)

theorem nodup_firstSeen {α : Type} [DecidableEq α] (l : List α) : (firstSeen l).Nodup :=
  nodup_firstSeenAux [] l

theorem sum_map_count_firstSeen {α : Type} [DecidableEq α] (l : List α) :
    ((firstSeen l).map (fun v => l.count v)).sum = l.length := by
  have h1 : (firstSeen l).toFinset = l.toFinset := by
    ext x
    simp [List.mem_toFinset, mem_firstSeen]
  calc ((firstSeen l).map (fun v => l.count v)).sum
      = (firstSeen l).toFinset.sum (fun v => l.count v) :=
        (List.sum_toFinset _ (nodup_firstSeen l)).symm
    _ = l.toFinset.sum (fun v => l.count v) := by rw [h1]
    _ = l.length := List.sum_toFinset_count_eq_length l

theorem sum_snd_value_counts (vals : List String) :
    ((value_counts vals).map Prod.snd).sum = vals.length := by
  have hperm :
      List.Perm
        (List.insertionSort byCountDesc ((firstSeen vals).map (fun v => (v, vals.count v))))
        ((firstSeen vals).map (fun v => (v, vals.count v))) :=
    List.perm_insertionSort _ _
  rw [value_counts, (hperm.map Prod.snd).sum_eq, List.map_map]
  simpa [Function.comp] using sum_map_count_firstSeen vals

theorem sum_take_le (n : Nat) (ns : List Nat) : (ns.take n).sum ≤ ns.sum := by
  conv_rhs => rw [← List.take_append_drop n ns]
  rw [List.sum_append]
  exact Nat.le_add_right _ _

theorem df_filtrado_eq_filter (df : List Record) (spec : FilterSpec) :
    df_filtrado df spec = df.filter (fun r => matchesSpec spec r) := by
  rcases spec with ⟨ano, tipos, especies, assuntos⟩
  simp only [df_filtrado, matchesSpec]
  cases ano <;> cases ht : tipos.isEmpty <;> cases he : especies.isEmpty <;>
      cases ha : assuntos.isEmpty <;>
    simp [ht, he, ha, List.filter_filter, Bool.and_comm, Bool.and_left_comm, Bool.and_assoc]

theorem loadDataset_eq_map (input : RawInput) (ds : List Record)
    (h : loadDataset input = some ds) : ds = input.rows.map normalizeRow := by
  unfold loadDataset load_data at h
  by_cases hc : "DATA E HORA DE ENTRADA" ∈ input.columns ∧ "DATA DE ENTRADA" ∈ input.columns
  · rw [if_pos hc] at h
    simp only at h
    by_cases he : (input.rows.map normalizeRow).isEmpty
    · rw [if_pos he] at h; exact absurd h (by simp)
    · rw [if_neg he] at h; exact (Option.some_inj.mp h).symm
  · rw [if_neg hc] at h
    exact absurd h (by simp)

theorem round2_mono {x y : ℚ} (h : x ≤ y) : round2 x ≤ round2 y := by
  have h2 : round (x * 100) ≤ round (y * 100) := by
    rw [round_eq, round_eq]
    exact Int.floor_le_floor (by linarith)
  rw [round2, round2]
  have h3 : ((round (x * 100) : ℤ) : ℚ) ≤ ((round (y * 100) : ℤ) : ℚ) := by exact_mod_cast h2
  linarith

theorem round2_zero : round2 0 = 0 := by
  simp [round2]

theorem round2_hundred : round2 100 = 100 := by
  rw [round2, show ((100 : ℚ) * 100) = ((10000 : ℤ) : ℚ) by norm_num, round_intCast]
  norm_num

theorem normalizeRow_null_iff (row : RawRow) :
    ((normalizeRow row).ano.isNone = (normalizeRow row).dataEHoraEntrada.isNone) ∧
    ((normalizeRow row).mes.isNone = (normalizeRow row).dataEHoraEntrada.isNone) ∧
    ((normalizeRow row).mesAno.isNone = (normalizeRow row).dataEHoraEntrada.isNone) := by
  cases h : row.dataEHoraEntrada.bind parseDate <;> simp [normalizeRow, h]

theorem isNullAt_normalizeRow (row : RawRow) :
    isNullAt (normalizeRow row) Col.ano = isNullAt (normalizeRow row) Col.dataEHora ∧
    isNullAt (normalizeRow row) Col.mes = isNullAt (normalizeRow row) Col.dataEHora ∧
    isNullAt (normalizeRow row) Col.mesAno = isNullAt (normalizeRow row) Col.dataEHora := by
  cases h : row.dataEHoraEntrada.bind parseDate <;> simp [isNullAt, normalizeRow, h]

/-! ## Test fixtures -/

/-- Build a normalized record from cell values, entry timestamp first. -/
def testRec (dt t e a d s : Option String) : Record :=
  normalizeRow { dataEHoraEntrada := dt, dataEntrada := none, tipo := t, especie := e,
                 assunto := a, decisao := d, status := s }

/-- The 3-record view of the summary-metrics scenario: statuses
`["Pendente", "Concluído", "Pendente"]`, decisions
`[null, "Absolvição", null]`. -/
def viewC1 : List Record :=
  [testRec none none none none none (some "Pendente"),
   testRec none none none none (some "Absolvição") (some "Concluído"),
   testRec none none none none none (some "Pendente")]

/-- A raw row with every cell empty. -/
def rowVazia : RawRow :=
  { dataEHoraEntrada := none, dataEntrada := none, tipo := none,
    especie := none, assunto := none, decisao := none, status := none }

/-- An input whose schema has the entry-timestamp column but lacks the
secondary-date column `DATA DE ENTRADA`. -/
def inputC3 : RawInput :=
  { columns := ["DATA E HORA DE ENTRADA", "TIPO"], rows := [rowVazia] }

/-! ## Claims -/

/-- C1 (amended): `summaryMetrics` returns `total` = the number of
records in the view, `withDecision` = the number of records with a
non-null decision, `pendingCount` = the number of records whose status
is the literal `"Pendente"`, and `taxa_conclusao` =
`withDecision / total * 100` — a percentage, not a bare ratio — when
`total > 0` and exactly `0` when `total = 0`; the 3-record scenario
yields `total=3`, `withDecision=1`, `pendingCount=2` and
`taxa_conclusao = 100/3 ≈ 33.3`. -/
theorem C1_summary_metrics :
    (∀ view : List Record,
        total_processos view = view.length ∧
        processos_com_decisao view = view.countP (fun r => (r.decisao).isSome) ∧
        processos_pendentes view = view.countP (fun r => r.status == some "Pendente") ∧
        (0 < total_processos view →
          taxa_conclusao view =
            (processos_com_decisao view : ℚ) / (total_processos view : ℚ) * 100) ∧
        (total_processos view = 0 → taxa_conclusao view = 0)) ∧
    total_processos viewC1 = 3 ∧
    processos_com_decisao viewC1 = 1 ∧
    processos_pendentes viewC1 = 2 ∧
    taxa_conclusao viewC1 = 100 / 3 := by
  refine ⟨fun view => ⟨rfl, ?_, ?_, ?_, ?_⟩, by decide, by decide, by decide, ?_⟩
  · rw [processos_com_decisao, List.countP_eq_length_filter]
  · rw [processos_pendentes, List.countP_eq_length_filter]
  · intro h
    rw [taxa_conclusao, if_pos h]
  · intro h
    rw [taxa_conclusao, if_neg (by omega)]
  · have h1 : processos_com_decisao viewC1 = 1 := by decide
    have h2 : total_processos viewC1 = 3 := by decide
    rw [taxa_conclusao, h1, h2]
    norm_num

/-- C1 counterexample: on the 3-record scenario view the code's
completion metric is `100/3`, not the claimed ratio
`withDecision / total = 1/3`; the code multiplies by 100. -/
theorem C1_counterexample :
    taxa_conclusao viewC1 ≠ (processos_com_decisao viewC1 : ℚ) / (total_processos viewC1 : ℚ) := by
  have h1 : processos_com_decisao viewC1 = 1 := by decide
  have h2 : total_processos viewC1 = 3 := by decide
  rw [taxa_conclusao, h1, h2]
  norm_num

/-- C1 witness: the percentage formula of the amended claim holds at the
concrete 3-record scenario view. -/
theorem C1_witness :
    taxa_conclusao viewC1 =
      (processos_com_decisao viewC1 : ℚ) / (total_processos viewC1 : ℚ) * 100 :=
  (C1_summary_metrics.1 viewC1).2.2.2.1 (by decide)

/-- C2 (amended): for a non-empty view the missing percentage of every
column is `missingCount / len(view) * 100` rounded to two decimal
places (for `len(view) ≥ 1` the claimed `max(1, len(view))` denominator
coincides with the code's `len(view)`), and lies between 0 and 100; for
the empty view the code divides `0 / 0`, which yields the float `NaN`
(no numeric value, modelled `none`) for every column rather than the
claimed `0%` — though no division error is raised. -/
theorem C2_missing_report :
    (∀ (view : List Record) (c : Col), view ≠ [] →
        missing_percent view c =
          some (round2 ((missing_data view c : ℚ) / ((max 1 view.length : ℕ) : ℚ) * 100)) ∧
        ∃ q, missing_percent view c = some q ∧ 0 ≤ q ∧ q ≤ 100) ∧
    (∀ c : Col, missing_percent ([] : List Record) c = none) := by
  constructor
  · intro view c hne
    have hlen : view.length ≠ 0 := by simpa using hne
    have hmax : (max 1 view.length) = view.length :=
      Nat.max_eq_right (Nat.one_le_iff_ne_zero.mpr hlen)
    refine ⟨by rw [missing_percent, if_neg hlen, hmax], ?_⟩
    have hm : missing_data view c ≤ view.length := List.countP_le_length _
    have hlpos : (0 : ℚ) < (view.length : ℚ) := by
      exact_mod_cast Nat.pos_of_ne_zero hlen
    have hfrac0 : 0 ≤ (missing_data view c : ℚ) / (view.length : ℚ) * 100 := by positivity
    have hfrac1 : (missing_data view c : ℚ) / (view.length : ℚ) * 100 ≤ 100 := by
      have h1 : (missing_data view c : ℚ) / (view.length : ℚ) ≤ 1 :=
        (div_le_one hlpos).mpr (by exact_mod_cast hm)
      linarith
    refine ⟨round2 ((missing_data view c : ℚ) / (view.length : ℚ) * 100),
      by rw [missing_percent, if_neg hlen], ?_, ?_⟩
    · calc (0 : ℚ) = round2 0 := round2_zero.symm
        _ ≤ round2 _ := round2_mono hfrac0
    · calc round2 _ ≤ round2 100 := round2_mono hfrac1
        _ = 100 := round2_hundred
  · intro c
    rw [missing_percent]
    simp

/-- C2 counterexample: on the empty view the report gives no numeric
percentage for the `TIPO` column (pandas `0/0 = NaN`), not the claimed
`0%`. -/
theorem C2_counterexample : missing_percent ([] : List Record) Col.tipo ≠ some 0 := by
  simp [missing_percent]

/-- C2 witness: the amended percentage formula holds at the concrete
3-record view and the `TIPO` column. -/
theorem C2_witness :
    missing_percent viewC1 Col.tipo =
      some (round2 ((missing_data viewC1 Col.tipo : ℚ) / ((max 1 viewC1.length : ℕ) : ℚ) * 100)) :=
  (C2_missing_report.1 viewC1 Col.tipo (by decide)).1

/-- C3 (amended): the load produces no Dataset exactly when the
entry-timestamp column `DATA E HORA DE ENTRADA` is absent from the
schema, or the secondary-date column `DATA DE ENTRADA` is absent from
the schema (its subscript at line 42 raises the same `KeyError`), or
the input has no rows (the `df.empty` guard); when both columns are
present and there is at least one row the load succeeds regardless of
how malformed the individual values are. -/
theorem C3_load_schema :
    ∀ input : RawInput,
      (∃ ds, loadDataset input = some ds) ↔
        ("DATA E HORA DE ENTRADA" ∈ input.columns ∧ "DATA DE ENTRADA" ∈ input.columns ∧
          input.rows ≠ []) := by
  intro input
  unfold loadDataset load_data
  by_cases hc : "DATA E HORA DE ENTRADA" ∈ input.columns ∧ "DATA DE ENTRADA" ∈ input.columns
  · rw [if_pos hc]
    by_cases he : input.rows = []
    · simp [he, hc]
    · have hne : (input.rows.map normalizeRow).isEmpty = false := by
        simp [List.isEmpty_iff, he]
      simp [hne, hc, he]
  · rw [if_neg hc]
    simp only [false_iff, reduceCtorEq, exists_false]
    tauto

/-- C3 counterexample: an input whose schema does contain the
entry-timestamp column but lacks `DATA DE ENTRADA` still fails to load,
contradicting "fails exactly when the entry-timestamp column is
absent". -/
theorem C3_counterexample :
    "DATA E HORA DE ENTRADA" ∈ inputC3.columns ∧ loadDataset inputC3 = none := by
  decide

theorem ano_clause_iff (o v : Option Nat) :
    ((match o with | none => true | some y => v == some y) = true) ↔
      (o = none ∨ ∃ y, o = some y ∧ v = some y) := by
  cases o <;> simp

theorem sel_clause_iff (sel : List String) (v : Option String) :
    ((sel.isEmpty || optMem v sel) = true) ↔ (sel = [] ∨ ∃ x, v = some x ∧ x ∈ sel) := by
  cases v <;> simp [optMem, List.isEmpty_iff, List.contains, List.elem_iff]

theorem matchesSpec_iff (spec : FilterSpec) (r : Record) :
    (matchesSpec spec r = true) ↔
      ((spec.ano = none ∨ ∃ y, spec.ano = some y ∧ r.ano = some y) ∧
        (spec.tipos = [] ∨ ∃ v, r.tipo = some v ∧ v ∈ spec.tipos) ∧
        (spec.especies = [] ∨ ∃ v, r.especie = some v ∧ v ∈ spec.especies) ∧
        (spec.assuntos = [] ∨ ∃ v, r.assunto = some v ∧ v ∈ spec.assuntos)) := by
  rw [matchesSpec]
  simp only [Bool.and_eq_true, ano_clause_iff, sel_clause_iff]
  tauto

/-- The FilterSpec with no year predicate and every inclusion set empty. -/
def specVazio : FilterSpec := { ano := none, tipos := [], especies := [], assuntos := [] }

/-- A record whose case type is missing, and a spec that filters on
case type: witness data for the null-exclusion clause. -/
def recSemTipo : Record := testRec none none none none none none

/-- A FilterSpec with a non-empty case-type inclusion set. -/
def specComTipo : FilterSpec := { ano := none, tipos := ["PAD"], especies := [], assuntos := [] }

/-- C4: a record is in the filtered view iff it is in the dataset and
matches the year predicate (absent, or the record's year is non-null
and equal) and, for each categorical attribute, the inclusion set is
empty or the record's value is non-null and belongs to it; hence the
all-empty spec is the identity filter and a record with a null value is
excluded whenever that attribute's inclusion set is non-empty. -/
theorem C4_filter_semantics :
    (∀ (df : List Record) (spec : FilterSpec) (r : Record),
        r ∈ df_filtrado df spec ↔
          r ∈ df ∧
          (spec.ano = none ∨ ∃ y, spec.ano = some y ∧ r.ano = some y) ∧
          (spec.tipos = [] ∨ ∃ v, r.tipo = some v ∧ v ∈ spec.tipos) ∧
          (spec.especies = [] ∨ ∃ v, r.especie = some v ∧ v ∈ spec.especies) ∧
          (spec.assuntos = [] ∨ ∃ v, r.assunto = some v ∧ v ∈ spec.assuntos)) ∧
    (∀ df : List Record, df_filtrado df specVazio = df) ∧
    (∀ (df : List Record) (spec : FilterSpec) (r : Record),
        spec.tipos ≠ [] → r.tipo = none → r ∉ df_filtrado df spec) := by
  have hmem : ∀ (df : List Record) (spec : FilterSpec) (r : Record),
      r ∈ df_filtrado df spec ↔ r ∈ df ∧ matchesSpec spec r = true := by
    intro df spec r
    rw [df_filtrado_eq_filter, List.mem_filter]
  refine ⟨?_, ?_, ?_⟩
  · intro df spec r
    rw [hmem, matchesSpec_iff]
  · intro df
    rfl
  · intro df spec r hsel hnull hin
    rcases ((hmem df spec r).mp hin).2 |> (matchesSpec_iff spec r).mp with ⟨-, htipo, -, -⟩
    rcases htipo with h | ⟨v, hv, -⟩
    · exact hsel h
    · rw [hnull] at hv
      cases hv

/-- C4 witness: the null-exclusion clause at a concrete dataset, spec
and record: a record with no case type is excluded by a spec whose
case-type inclusion set is `["PAD"]`. -/
theorem C4_witness : recSemTipo ∉ df_filtrado [recSemTipo] specComTipo :=
  C4_filter_semantics.2.2 [recSemTipo] specComTipo recSemTipo (by decide) rfl

/-- The three records of the case-type filter scenario, with case types
`["Sindicância", "PAD", "Sindicância"]`. -/
def recSind1 : Record := testRec none (some "Sindicância") none (some "A") none none

def recPAD : Record := testRec none (some "PAD") none (some "B") none none

def recSind2 : Record := testRec none (some "Sindicância") none (some "C") none none

/-- The scenario spec: case-type inclusion set `{"Sindicância"}`. -/
def specSind : FilterSpec := { ano := none, tipos := ["Sindicância"], especies := [], assuntos := [] }

/-- C5: the filtered view is an ordered subsequence of the dataset, so
its length never exceeds the dataset's; filtering records with case
types `["Sindicância", "PAD", "Sindicância"]` by the inclusion set
`{"Sindicância"}` keeps records 1 and 3 in their original order. -/
theorem C5_view_subsequence :
    (∀ (df : List Record) (spec : FilterSpec), (df_filtrado df spec).Sublist df) ∧
    (∀ (df : List Record) (spec : FilterSpec), (df_filtrado df spec).length ≤ df.length) ∧
    df_filtrado [recSind1, recPAD, recSind2] specSind = [recSind1, recSind2] := by
  have hsub : ∀ (df : List Record) (spec : FilterSpec), (df_filtrado df spec).Sublist df := by
    intro df spec
    rw [df_filtrado_eq_filter]
    exact List.filter_sublist df
  exact ⟨hsub, fun df spec => (hsub df spec).length_le, by decide⟩

/-- C6: the counts of `frequencyCount` sum to the number of records
whose attribute is non-null, hence to at most the view's length, with
equality iff no value of the attribute is null in the view; truncating
to `topN` never increases the sum, and the output (truncated or not)
is sorted by count descending. -/
theorem C6_frequency_count :
    (∀ (view : List Record) (attr : Record → Option String),
        ((frequencyCount view attr none).map Prod.snd).sum =
          view.countP (fun r => (attr r).isSome) ∧
        ((frequencyCount view attr none).map Prod.snd).sum ≤ view.length ∧
        (((frequencyCount view attr none).map Prod.snd).sum = view.length ↔
          ∀ r ∈ view, (attr r).isSome)) ∧
    (∀ (view : List Record) (attr : Record → Option String) (n : Nat),
        ((frequencyCount view attr (some n)).map Prod.snd).sum ≤
          ((frequencyCount view attr none).map Prod.snd).sum) ∧
    (∀ (view : List Record) (attr : Record → Option String) (topN : Option Nat),
        List.Sorted byCountDesc (frequencyCount view attr topN)) := by
  have hsum : ∀ (view : List Record) (attr : Record → Option String),
      ((frequencyCount view attr none).map Prod.snd).sum =
        view.countP (fun r => (attr r).isSome) := by
    intro view attr
    show ((value_counts (view.filterMap attr)).map Prod.snd).sum = _
    rw [sum_snd_value_counts, List.length_filterMap_eq_countP]
  refine ⟨?_, ?_, ?_⟩
  · intro view attr
    refine ⟨hsum view attr, ?_, ?_⟩
    · rw [hsum]
      exact List.countP_le_length _
    · rw [hsum]
      exact List.countP_eq_length
  · intro view attr n
    show ((value_counts (view.filterMap attr)).take n |>.map Prod.snd).sum ≤ _
    rw [List.map_take]
    exact sum_take_le n _
  · intro view attr topN
    have hs : List.Sorted byCountDesc (value_counts (view.filterMap attr)) :=
      List.sorted_insertionSort byCountDesc _
    match topN with
    | none => exact hs
    | some n => exact List.Pairwise.sublist (List.take_sublist n _) hs

theorem map_fst_bucketCounts (keys : List Nat) :
    (bucketCounts keys).map Prod.fst =
      List.insertionSort (fun a b => a ≤ b) (firstSeen keys) := by
  rw [bucketCounts, List.map_map]
  exact List.map_id _

theorem mem_map_fst_bucketCounts (keys : List Nat) (b : Nat) :
    b ∈ (bucketCounts keys).map Prod.fst ↔ b ∈ keys := by
  rw [map_fst_bucketCounts, (List.perm_insertionSort _ _).mem_iff, mem_firstSeen]

theorem sorted_map_fst_bucketCounts (keys : List Nat) :
    List.Sorted (fun a b : Nat => a < b) ((bucketCounts keys).map Prod.fst) := by
  rw [map_fst_bucketCounts]
  have hs : List.Sorted (fun a b : Nat => a ≤ b)
      (List.insertionSort (fun a b : Nat => a ≤ b) (firstSeen keys)) :=
    List.sorted_insertionSort _ _
  have hnd : (List.insertionSort (fun a b : Nat => a ≤ b) (firstSeen keys)).Nodup :=
    ((List.perm_insertionSort _ _).nodup_iff).mpr (nodup_firstSeen keys)
  exact (List.Pairwise.and hs hnd).imp (fun h => lt_of_le_of_ne h.1 h.2)

theorem bucketCounts_pair (keys : List Nat) (p : Nat × Nat) (hp : p ∈ bucketCounts keys) :
    0 < p.2 ∧ p.2 = keys.count p.1 := by
  rw [bucketCounts] at hp
  rcases List.mem_map.mp hp with ⟨b, hb, rfl⟩
  have hbk : b ∈ keys := by
    have hb2 := (List.perm_insertionSort _ _).mem_iff.mp hb
    rwa [mem_firstSeen] at hb2
  exact ⟨List.count_pos_iff.mpr hbk, rfl⟩

/-- The three records of the time-series scenario: entry timestamps in
2023-01, 2023-01 and 2023-03, none in 2023-02. -/
def viewC7 : List Record :=
  [testRec (some "2023-01-15") none none none none none,
   testRec (some "2023-01-20") none none none none none,
   testRec (some "2023-03-05") none none none none none]

/-- C7: the time series (month and day granularity) lists exactly the
buckets that some record of the view falls in — zero-record buckets
are omitted — sorted strictly ascending, each with its positive record
count; the scenario view with records only in 2023-01 and 2023-03
yields exactly those two buckets, 2023-02 absent. -/
theorem C7_time_series :
    (∀ (view : List Record) (b : Nat),
        b ∈ (mes_ano_counts view).map Prod.fst ↔ ∃ r ∈ view, r.mesAno = some b) ∧
    (∀ view : List Record,
        List.Sorted (fun a b : Nat => a < b) ((mes_ano_counts view).map Prod.fst)) ∧
    (∀ (view : List Record) (p : Nat × Nat), p ∈ mes_ano_counts view →
        0 < p.2 ∧ p.2 = (view.filterMap (fun r => r.mesAno)).count p.1) ∧
    (∀ (view : List Record) (b : Nat),
        b ∈ (df_temporal view).map Prod.fst ↔
          ∃ r ∈ view, r.dataEHoraEntrada.map dayBucket = some b) ∧
    (∀ view : List Record,
        List.Sorted (fun a b : Nat => a < b) ((df_temporal view).map Prod.fst)) ∧
    (mes_ano_counts viewC7).map Prod.fst =
      [monthBucket ⟨2023, 1, 15⟩, monthBucket ⟨2023, 3, 5⟩] ∧
    monthBucket ⟨2023, 2, 1⟩ ∉ (mes_ano_counts viewC7).map Prod.fst := by
  refine ⟨?_, ?_, ?_, ?_, ?_, by decide, by decide⟩
  · intro view b
    rw [mes_ano_counts, mem_map_fst_bucketCounts, List.mem_filterMap]
  · intro view
    exact sorted_map_fst_bucketCounts _
  · intro view p hp
    exact bucketCounts_pair _ p hp
  · intro view b
    rw [df_temporal, mem_map_fst_bucketCounts, List.mem_filterMap]
  · intro view
    exact sorted_map_fst_bucketCounts _

/-- C7 witness: the positive-count clause at the concrete scenario view
and its 2023-01 bucket, which holds two records. -/
theorem C7_witness :
    0 < ((monthBucket ⟨2023, 1, 15⟩, 2) : Nat × Nat).2 ∧
    ((monthBucket ⟨2023, 1, 15⟩, 2) : Nat × Nat).2 =
      (viewC7.filterMap (fun r => r.mesAno)).count (monthBucket ⟨2023, 1, 15⟩, 2).1 :=
  C7_time_series.2.2.1 viewC7 (monthBucket ⟨2023, 1, 15⟩, 2) (by decide)

/-- A raw row whose entry-timestamp cell holds the given text and whose
other cells are empty. -/
def rowCom (dt : String) : RawRow := { rowVazia with dataEHoraEntrada := some dt }

/-- The malformed-timestamp scenario input: entry timestamps
`["2023-01-15", "not-a-date", "2023-02-01"]` under a complete schema. -/
def inputC8 : RawInput :=
  { columns := ["DATA E HORA DE ENTRADA", "DATA DE ENTRADA"],
    rows := [rowCom "2023-01-15", rowCom "not-a-date", rowCom "2023-02-01"] }

/-- C8: with the mandatory columns present and at least one row, the
load never fails and keeps every row, however malformed its values;
each record's derived year equals the year of its parsed entry
timestamp, and year, month and year-month bucket are null exactly when
the entry timestamp is null or unparseable; the scenario timestamps
`["2023-01-15", "not-a-date", "2023-02-01"]` normalize to years
`[2023, null, 2023]` with row 2's month and bucket also null. -/
theorem C8_tolerant_normalize :
    (∀ input : RawInput,
        "DATA E HORA DE ENTRADA" ∈ input.columns →
        "DATA DE ENTRADA" ∈ input.columns →
        input.rows ≠ [] →
        ∃ ds, loadDataset input = some ds ∧ ds.length = input.rows.length) ∧
    (∀ row : RawRow,
        (normalizeRow row).ano = (row.dataEHoraEntrada.bind parseDate).map Date.year ∧
        ((normalizeRow row).ano = none ↔ (normalizeRow row).dataEHoraEntrada = none) ∧
        ((normalizeRow row).mes = none ↔ (normalizeRow row).dataEHoraEntrada = none) ∧
        ((normalizeRow row).mesAno = none ↔ (normalizeRow row).dataEHoraEntrada = none)) ∧
    (loadDataset inputC8).map (List.map Record.ano) = some [some 2023, none, some 2023] ∧
    (loadDataset inputC8).map (List.map Record.mes) = some [some 1, none, some 2] ∧
    (loadDataset inputC8).map (List.map Record.mesAno) =
      some [some (monthBucket ⟨2023, 1, 15⟩), none, some (monthBucket ⟨2023, 2, 1⟩)] := by
  refine ⟨?_, ?_, by decide, by decide, by decide⟩
  · intro input h1 h2 h3
    refine ⟨input.rows.map normalizeRow, ?_, by simp⟩
    unfold loadDataset load_data
    rw [if_pos ⟨h1, h2⟩]
    have hne : (input.rows.map normalizeRow).isEmpty = false := by
      simp [List.isEmpty_iff, h3]
    simp [hne]
  · intro row
    refine ⟨rfl, ?_, ?_, ?_⟩ <;>
      cases h : row.dataEHoraEntrada.bind parseDate <;>
      simp [normalizeRow, h]

/-- C8 witness: the never-fails clause at the concrete scenario input
with one malformed timestamp. -/
theorem C8_witness :
    ∃ ds, loadDataset inputC8 = some ds ∧ ds.length = inputC8.rows.length :=
  C8_tolerant_normalize.1 inputC8 (by decide) (by decide) (by decide)

/-- C9: applying the same FilterSpec to an already filtered view changes
nothing — `apply(apply(dataset, spec), spec) = apply(dataset, spec)`. -/
theorem C9_idempotent :
    ∀ (df : List Record) (spec : FilterSpec),
      df_filtrado (df_filtrado df spec) spec = df_filtrado df spec := by
  intro df spec
  rw [df_filtrado_eq_filter (df_filtrado df spec) spec, df_filtrado_eq_filter df spec,
    List.filter_filter]
  exact List.filter_congr (fun r _ => by simp)

/-- C10: in every loaded dataset and every filtered view of it, the
derived `ANO`, `MES` and `MES_ANO` columns each have exactly as many
missing values as the entry-timestamp column, since each is null
precisely when the parsed timestamp is. -/
theorem C10_derived_missing :
    ∀ (input : RawInput) (ds : List Record) (spec : FilterSpec),
      loadDataset input = some ds →
      missing_data (df_filtrado ds spec) Col.ano =
        missing_data (df_filtrado ds spec) Col.dataEHora ∧
      missing_data (df_filtrado ds spec) Col.mes =
        missing_data (df_filtrado ds spec) Col.dataEHora ∧
      missing_data (df_filtrado ds spec) Col.mesAno =
        missing_data (df_filtrado ds spec) Col.dataEHora := by
  intro input ds spec h
  have hds := loadDataset_eq_map input ds h
  have hrow : ∀ r ∈ df_filtrado ds spec, ∃ row, r = normalizeRow row := by
    intro r hr
    have hin : r ∈ ds := by
      rw [df_filtrado_eq_filter] at hr
      exact (List.mem_filter.mp hr).1
    rw [hds] at hin
    rcases List.mem_map.mp hin with ⟨row, -, rfl⟩
    exact ⟨row, rfl⟩
  unfold missing_data
  refine ⟨?_, ?_, ?_⟩ <;>
    refine List.countP_congr ?_ <;>
    intro r hr <;>
    rcases hrow r hr with ⟨row, rfl⟩
  · simp [(isNullAt_normalizeRow row).1]
  · simp [(isNullAt_normalizeRow row).2.1]
  · simp [(isNullAt_normalizeRow row).2.2]

/-- C10 witness: the `ANO`-column clause at the concrete scenario
input, its loaded dataset, and the unrestricted FilterSpec. -/
theorem C10_witness :
    missing_data (df_filtrado (inputC8.rows.map normalizeRow) specVazio) Col.ano =
      missing_data (df_filtrado (inputC8.rows.map normalizeRow) specVazio) Col.dataEHora :=
  (C10_derived_missing inputC8 (inputC8.rows.map normalizeRow) specVazio (by decide)).1
